import Mathlib

/-!
Shallow embedding of the guest-scoped mDNS discovery-response proxy
(`GuestResponder` in the mdns-responder module, `ChromecastDiscovery` in
`lib/mdns-listener.js`, and the `FirewallManager` integration from the
project guide), together with theorems settling the specification claims.

Conventions of the embedding:
* JavaScript timestamps are milliseconds, modelled as `Int`; a `Date` that
  fails to parse (`NaN`) is modelled as `Option.none`, and every `<`
  comparison involving it is `false`, exactly as in JS.
* A JSON file read that fails (missing, unreadable, unparsable) is the
  `none` case of an `Option` around the parsed content; the corresponding
  `try`/`catch` branch of the source is the `none` branch here.
* JS string values that may be `null`/`undefined` are `Option String`;
  the JS truthiness test `if (!room)` rejects `none` and `some ""`.
-/

namespace CastProxy

/-- One decoded DNS question, as produced by `dns.decode`: a name and a
record type string such as "PTR". -/
structure Question where
  name : String
  qtype : String
deriving DecidableEq, Repr

/-- The decoded datagram, restricted to the part the responder inspects:
`packet.questions`. -/
structure Packet where
  questions : List Question
deriving DecidableEq, Repr

/-- One record of `data/pairings.json`, keyed by guest IP.
`expires_at` is the parsed `new Date(pairing.expires_at)` value:
`none` when the stored string does not parse as a date (JS `NaN`). -/
structure Pairing where
  room : Option String
  expires_at : Option Int
deriving DecidableEq, Repr

/-- One record of `data/devices.json`. `room` is `none` when the stored
value is JSON `null` (device not assigned to a room). -/
structure Device where
  uuid : String
  friendly_name : String
  ip : String
  last_seen : String
  room : Option String
deriving DecidableEq, Repr

/-- Structure of the `rinfo` argument of the UDP message callback: source address and
source port of the received datagram. -/
structure Rinfo where
  address : String
  port : Nat
deriving DecidableEq, Repr

/-- The state the responder reads while handling one query: the two JSON
stores (each `none` when its file read or parse fails) and the current
time `new Date()` in milliseconds. -/
structure ProxyState where
  pairings : Option (List (String × Pairing))
  devices : Option (List Device)
  now : Int
deriving Repr

/-- JS `new Date(e) < new Date()` where `e` may have failed to parse:
a comparison against `NaN` is `false`. -/
def jsDateLt : Option Int → Int → Bool
  | none, _ => false
  | some t, n => t < n

/-- JSON-object property access `obj[key]` on an object modelled as a
key-ordered association list: first matching key wins, absent key is
`undefined` (`none`). -/
def objGet : List (String × Pairing) → String → Option Pairing
  | [], _ => none
  | (k, v) :: rest, key => if k = key then some v else objGet rest key

/-- JS truthiness of a string-or-nullish value, as tested by
`if (!room)`: `null`/`undefined` and the empty string are falsy. -/
def jsTruthyStr : Option String → Bool
  | none => false
  | some s => !(s == "")

/-- Translation of `GuestResponder.getRoomForGuest`: read `data/pairings.json`
(`none` on any read/parse error, caught and turned into `null`), look the
guest IP up, return `null` for an absent record, `null` when
`new Date(pairing.expires_at) < new Date()`, and `pairing.room`
otherwise. -/
def getRoomForGuest (st : ProxyState) (guestIP : String) : Option String :=
  match st.pairings with
  | none => none
  | some pairings =>
    match objGet pairings guestIP with
    | none => none
    | some pairing =>
      if jsDateLt pairing.expires_at st.now then none
      else pairing.room

/-- Translation of `GuestResponder.getDevicesForRoom`: read `data/devices.json`
(`[]` on any read/parse error, caught) and keep the devices with
`d.room === room` (strict equality; a `null` room never matches). -/
def getDevicesForRoom (st : ProxyState) (room : String) : List Device :=
  match st.devices with
  | none => []
  | some devices => devices.filter (fun d => d.room == some room)

/-- Translation of the JS uuid dash-stripping, `uuid.replace` with the
global dash regex: every dash removed. -/
def stripDashes (s : String) : String :=
  String.mk (s.data.filter (fun c => c ≠ '-'))

/-- Translation of the synthesized service instance name: the literal
`Chromecast-` followed by the uuid with every dash removed. -/
def instanceName (uuid : String) : String :=
  "Chromecast-" ++ stripDashes uuid

/-- Structure of the `data` object of an SRV record. -/
structure SrvData where
  priority : Nat
  weight : Nat
  port : Nat
  target : String
deriving DecidableEq, Repr

/-- Structure of the `data` field of a resource record, by record type. TXT data is
kept as the list of `key=value` strings that the source joins with a
NUL separator into one buffer. -/
inductive RData where
  | ptr (s : String)
  | txt (entries : List String)
  | srv (d : SrvData)
  | a (ip : String)
deriving DecidableEq, Repr

/-- One resource record of the response object passed to `dns.encode`. -/
structure ResourceRecord where
  rtype : String
  rclass : String
  name : String
  ttl : Nat
  rdata : RData
deriving DecidableEq, Repr

/-- The full response object passed to `dns.encode`. -/
structure Response where
  rtype : String
  id : Nat
  flags : Nat
  questions : List Question
  answers : List ResourceRecord
  additionals : List ResourceRecord
deriving DecidableEq, Repr

/-- Translation of `GuestResponder.buildResponse`: one self-contained answer message for
one device — a PTR answer plus TXT, SRV and A additionals, all with
TTL 120, flags 0x8400. -/
def buildResponse (device : Device) : Response :=
  let iname := instanceName device.uuid
  { rtype := "response"
    id := 0
    flags := 0x8400
    questions := []
    answers := [
      { rtype := "PTR", rclass := "IN", name := "_googlecast._tcp.local", ttl := 120,
        rdata := RData.ptr (iname ++ "._googlecast._tcp.local") }]
    additionals := [
      { rtype := "TXT", rclass := "IN", name := iname ++ "._googlecast._tcp.local", ttl := 120,
        rdata := RData.txt [
          "id=" ++ device.uuid,
          "fn=" ++ device.friendly_name,
          "md=Chromecast",
          "ve=05",
          "ic=/setup/icon.png"] },
      { rtype := "SRV", rclass := "IN", name := iname ++ "._googlecast._tcp.local", ttl := 120,
        rdata := RData.srv { priority := 0, weight := 0, port := 8009,
                             target := iname ++ ".local" } },
      { rtype := "A", rclass := "IN", name := iname ++ ".local", ttl := 120,
        rdata := RData.a device.ip }] }

/-- The relevance test of `handleQuery`: some question has name
strictly equal (===, case-sensitive) to "_googlecast._tcp.local" and
type strictly equal to "PTR". -/
def isGoogleCast (packet : Packet) : Bool :=
  packet.questions.any (fun q =>
    q.name == "_googlecast._tcp.local" && q.qtype == "PTR")

/-- Record of one `socket.send(response, rinfo.port, guestIP)` call: the encoded
payload and its destination port and address. -/
structure Send where
  payload : Response
  port : Nat
  addr : String
deriving DecidableEq, Repr

/-- Translation of `GuestResponder.handleQuery`, returning the list of datagrams sent,
in order. Not Google-Cast relevant: return with no send. `!room`
(null or empty): return with no send. Otherwise one
`socket.send(buildResponse(device), rinfo.port, guestIP)` per device of
`getDevicesForRoom(room)`. -/
def handleQuery (st : ProxyState) (packet : Packet) (rinfo : Rinfo) : List Send :=
  if isGoogleCast packet then
    match getRoomForGuest st rinfo.address with
    | none => []
    | some room =>
      if room == "" then []
      else
        (getDevicesForRoom st room).map
          (fun d => { payload := buildResponse d, port := rinfo.port, addr := rinfo.address })
  else []

/-- One observable action of the firewall-integrated handler shown in the
project guide (Phase 4): a datagram send, or a firewall allow request
together with the boolean it returned. -/
inductive Action where
  | send (payload : Response) (port : Nat) (addr : String)
  | fwAllow (guestIP : String) (deviceIP : String) (ttlMinutes : Nat) (ok : Bool)
deriving DecidableEq, Repr

/-- Translation of `FirewallManager.allowPair` from the guide: run the
`nft add element` command for the (guest, chromecast) address pair with
the given timeout, returning true on success and false on a caught
error. Whether the external command succeeds is abstracted by the
oracle `execOk`; the catch block means the call never throws. -/
def allowPair (execOk : String → String → Bool)
    (guestIP chromecastIP : String) (_ttlMinutes : Nat) : Bool :=
  execOk guestIP chromecastIP

/-- Translation of the device loop of the guide-integrated `handleQuery`:
for each device, send the response, then call
`allowPair(guestIP, device.ip, 15)`; the boolean `allowPair` returns is
recorded but never alters control flow. -/
def deviceActions (execOk : String → String → Bool) (rinfo : Rinfo) :
    List Device → List Action
  | [] => []
  | d :: rest =>
    Action.send (buildResponse d) rinfo.port rinfo.address ::
    Action.fwAllow rinfo.address d.ip 15 (allowPair execOk rinfo.address d.ip 15) ::
    deviceActions execOk rinfo rest

/-- Translation of `handleQuery` as integrated with the firewall in the
guide: same gates as `handleQuery`, then the send + allowPair loop. -/
def handleQueryFW (execOk : String → String → Bool) (st : ProxyState)
    (packet : Packet) (rinfo : Rinfo) : List Action :=
  if isGoogleCast packet then
    match getRoomForGuest st rinfo.address with
    | none => []
    | some room =>
      if room == "" then []
      else deviceActions execOk rinfo (getDevicesForRoom st room)
  else []

/-- Projection of an action trace to its datagram sends. -/
def sendsOf : List Action → List Send
  | [] => []
  | Action.send p po a :: rest => { payload := p, port := po, addr := a } :: sendsOf rest
  | Action.fwAllow _ _ _ _ :: rest => sendsOf rest

/-- Translation of the record built by `ChromecastDiscovery.fetchDeviceInfo`
in `lib/mdns-listener.js`: uuid taken from the UDN, the friendly name,
the probed ip, a fresh `last_seen` timestamp, and always `room: null` —
the room key is present (with value null) in every record this function
returns. -/
def fetchDeviceInfo (uuid friendlyName ip nowIso : String) : Device :=
  { uuid := uuid, friendly_name := friendlyName, ip := ip,
    last_seen := nowIso, room := none }

/-- Translation of the JS object spread `{ ...devices[index], ...deviceInfo }`
in `saveDevice`, where `deviceInfo` carries all five keys (as every
`fetchDeviceInfo` result does): each field of the stored record is
overwritten by the incoming value, including `room`. -/
def spreadMerge (_old newInfo : Device) : Device :=
  { uuid := newInfo.uuid, friendly_name := newInfo.friendly_name,
    ip := newInfo.ip, last_seen := newInfo.last_seen, room := newInfo.room }

/-- Translation of `ChromecastDiscovery.saveDevice`: find the first stored
device with the same uuid (`findIndex`); replace it by the spread merge
when found, otherwise push the new record at the end. -/
def saveDevice : List Device → Device → List Device
  | [], info => [info]
  | d :: rest, info =>
    if d.uuid == info.uuid then spreadMerge d info :: rest
    else d :: saveDevice rest info

/-- Lower-casing of every character of a string, used only to state the
case-insensitive name matching that the specification prescribes. -/
def lowerStr (s : String) : String :=
  String.mk (s.data.map Char.toLower)

/-- Modelled from the spec (refinement reference, not translated from the
source): the relevance predicate as the specification words it — some
question requests a PTR record for a name matching
"_googlecast._tcp.local" case-insensitively. -/
def specRelevant (packet : Packet) : Bool :=
  packet.questions.any (fun q =>
    lowerStr q.name == "_googlecast._tcp.local" && q.qtype == "PTR")

/-! ## Helper lemmas (shared) -/

/-- Helper: every datagram `handleQuery` sends is addressed to the source
address and source port of the query being handled. -/
theorem handleQuery_send_dest (st : ProxyState) (p : Packet) (r : Rinfo) (s : Send)
    (hs : s ∈ handleQuery st p r) : s.addr = r.address ∧ s.port = r.port := by
  cases hgc : isGoogleCast p with
  | false =>
    have h0 : handleQuery st p r = [] := by simp [handleQuery, hgc]
    rw [h0] at hs; cases hs
  | true =>
    cases hroom : getRoomForGuest st r.address with
    | none =>
      have h0 : handleQuery st p r = [] := by simp [handleQuery, hroom]
      rw [h0] at hs; cases hs
    | some room =>
      by_cases he : room = ""
      · have h0 : handleQuery st p r = [] := by simp [handleQuery, hroom, he]
        rw [h0] at hs; cases hs
      · have hq : handleQuery st p r =
            (getDevicesForRoom st room).map
              (fun d => { payload := buildResponse d, port := r.port, addr := r.address }) := by
          simp [handleQuery, hgc, hroom, he]
        rw [hq] at hs
        obtain ⟨d, _, rfl⟩ := List.mem_map.mp hs
        exact ⟨rfl, rfl⟩

/-- Helper: each device of the loop list contributes its send and its
firewall-allow request to the action trace. -/
theorem deviceActions_mem (execOk : String → String → Bool) (r : Rinfo)
    (l : List Device) (d : Device) (hd : d ∈ l) :
    Action.send (buildResponse d) r.port r.address ∈ deviceActions execOk r l ∧
    Action.fwAllow r.address d.ip 15 (allowPair execOk r.address d.ip 15) ∈
      deviceActions execOk r l := by
  induction l with
  | nil => cases hd
  | cons x xs ih =>
    rcases List.mem_cons.mp hd with h | h
    · subst h
      exact ⟨List.mem_cons_self _ _, List.mem_cons_of_mem _ (List.mem_cons_self _ _)⟩
    · have hm := ih h
      exact ⟨List.mem_cons_of_mem _ (List.mem_cons_of_mem _ hm.1),
             List.mem_cons_of_mem _ (List.mem_cons_of_mem _ hm.2)⟩

/-- Helper: the datagrams sent by the firewall-integrated loop are one
response per device, independent of the firewall outcomes. -/
theorem sendsOf_deviceActions (execOk : String → String → Bool) (r : Rinfo) (l : List Device) :
    sendsOf (deviceActions execOk r l) =
      l.map (fun d => { payload := buildResponse d, port := r.port, addr := r.address }) := by
  induction l with
  | nil => rfl
  | cons x xs ih => simp [deviceActions, sendsOf, ih]

/-! ## C1 -/

/-- C1 counterexample: the claim also covers `expiresAt = now`, but on the
code a pairing whose `expires_at` equals the handling timestamp passes
the `new Date(expires_at) < new Date()` test (equality is not less-than),
so a response datagram IS sent: with `expires_at` parsed to 1000 and
`now = 1000`, an authorized query yields one send, not none. -/
theorem c1_counterexample_boundary_sends :
    handleQuery
      { pairings := some [("192.168.20.55", { room := some "101", expires_at := some 1000 })],
        devices := some [{ uuid := "aaa", friendly_name := "TV", ip := "192.168.30.9",
                           last_seen := "t", room := some "101" }],
        now := 1000 }
      { questions := [{ name := "_googlecast._tcp.local", qtype := "PTR" }] }
      { address := "192.168.20.55", port := 5353 } =
      [{ payload := buildResponse { uuid := "aaa", friendly_name := "TV", ip := "192.168.30.9",
                                    last_seen := "t", room := some "101" },
         port := 5353, addr := "192.168.20.55" }] := by
  decide

/-- C1 (amended): for every incoming query whose source address has no
pairing record, or has a pairing record whose parsed `expires_at` is
STRICTLY before `now`, or for which the pairing store read fails, the
proxy sends no response datagram at all: `getRoomForGuest` resolves to
none and `handleQuery` returns before building or sending anything. -/
theorem c1_fail_closed_no_response (st : ProxyState) (p : Packet) (r : Rinfo)
    (h : st.pairings = none ∨
      (∃ ps, st.pairings = some ps ∧ objGet ps r.address = none) ∨
      (∃ ps pairing t, st.pairings = some ps ∧ objGet ps r.address = some pairing ∧
        pairing.expires_at = some t ∧ t < st.now)) :
    handleQuery st p r = [] := by
  have hroom : getRoomForGuest st r.address = none := by
    rcases h with h | ⟨ps, hps, hget⟩ | ⟨ps, pairing, t, hps, hget, hexp, hlt⟩
    · simp [getRoomForGuest, h]
    · simp [getRoomForGuest, hps, hget]
    · simp [getRoomForGuest, hps, hget, jsDateLt, hexp, hlt]
  simp [handleQuery, hroom]

/-- C1 witness: a concrete unreadable-store state yields no sends. -/
theorem c1_fail_closed_no_response_witness :
    handleQuery { pairings := none, devices := none, now := 0 }
      { questions := [{ name := "_googlecast._tcp.local", qtype := "PTR" }] }
      { address := "10.0.0.1", port := 5353 } = [] :=
  c1_fail_closed_no_response
    { pairings := none, devices := none, now := 0 }
    { questions := [{ name := "_googlecast._tcp.local", qtype := "PTR" }] }
    { address := "10.0.0.1", port := 5353 } (Or.inl rfl)

/-! ## C2 -/

/-- C2: for a relevant query from a guest authorized to room `room`
(a non-falsy room resolved by `getRoomForGuest`), the list of datagrams
sent is exactly one self-contained response per registry device whose
`room` field strictly equals the authorized room — no extra devices, no
missing devices, no batching. -/
theorem c2_authorized_exact_devices (st : ProxyState) (p : Packet) (r : Rinfo)
    (room : String) (ds : List Device)
    (hrel : isGoogleCast p = true)
    (hauth : getRoomForGuest st r.address = some room)
    (hroom : room ≠ "")
    (hds : st.devices = some ds) :
    handleQuery st p r =
      (ds.filter (fun d => d.room == some room)).map
        (fun d => { payload := buildResponse d, port := r.port, addr := r.address }) := by
  simp [handleQuery, hrel, hauth, hroom, getDevicesForRoom, hds]

/-- C2 witness: on a registry with one device in room 101 and one in room
102, a guest paired to 101 gets exactly the filtered, per-device sends. -/
theorem c2_authorized_exact_devices_witness :
    handleQuery
      { pairings := some [("10.0.20.5", { room := some "101", expires_at := some 999 })],
        devices := some [{ uuid := "d1", friendly_name := "TV1", ip := "192.168.30.1",
                           last_seen := "t", room := some "101" },
                         { uuid := "d2", friendly_name := "TV2", ip := "192.168.30.2",
                           last_seen := "t", room := some "102" }],
        now := 0 }
      { questions := [{ name := "_googlecast._tcp.local", qtype := "PTR" }] }
      { address := "10.0.20.5", port := 5353 } =
      ([{ uuid := "d1", friendly_name := "TV1", ip := "192.168.30.1",
          last_seen := "t", room := some "101" },
        { uuid := "d2", friendly_name := "TV2", ip := "192.168.30.2",
          last_seen := "t", room := some "102" }].filter
            (fun d => d.room == some "101")).map
        (fun d => { payload := buildResponse d, port := 5353, addr := "10.0.20.5" }) :=
  c2_authorized_exact_devices
    { pairings := some [("10.0.20.5", { room := some "101", expires_at := some 999 })],
      devices := some [{ uuid := "d1", friendly_name := "TV1", ip := "192.168.30.1",
                         last_seen := "t", room := some "101" },
                       { uuid := "d2", friendly_name := "TV2", ip := "192.168.30.2",
                         last_seen := "t", room := some "102" }],
      now := 0 }
    { questions := [{ name := "_googlecast._tcp.local", qtype := "PTR" }] }
    { address := "10.0.20.5", port := 5353 } "101" _
    (by decide) (by decide) (by decide) rfl

/-! ## C3 -/

/-- C3 counterexample: with `expires_at` parsed to 777 and `now = 777`
(expiry exactly equal to the query-handling timestamp), the code treats
the pairing as NOT expired: `getRoomForGuest` returns the room and a
response is sent, contradicting the claim that it returns no room and no
response is sent. -/
theorem c3_counterexample_equal_expiry_authorized :
    getRoomForGuest
      { pairings := some [("192.168.20.77", { room := some "202", expires_at := some 777 })],
        devices := some [{ uuid := "bbb", friendly_name := "Bed TV", ip := "192.168.30.7",
                           last_seen := "t2", room := some "202" }],
        now := 777 } "192.168.20.77" = some "202" ∧
    handleQuery
      { pairings := some [("192.168.20.77", { room := some "202", expires_at := some 777 })],
        devices := some [{ uuid := "bbb", friendly_name := "Bed TV", ip := "192.168.30.7",
                           last_seen := "t2", room := some "202" }],
        now := 777 }
      { questions := [{ name := "_googlecast._tcp.local", qtype := "PTR" }] }
      { address := "192.168.20.77", port := 40000 } ≠ [] := by
  decide

/-- C3 (amended): a pairing record whose parsed `expires_at` is exactly
equal to the query-handling timestamp `now` is treated as NOT expired:
`getRoomForGuest` returns the pairing room (the code only expires a
record when `expires_at` is strictly less than `now`). -/
theorem c3_boundary_still_authorized (st : ProxyState) (a : String)
    (ps : List (String × Pairing)) (pairing : Pairing)
    (hps : st.pairings = some ps)
    (hget : objGet ps a = some pairing)
    (hexp : pairing.expires_at = some st.now) :
    getRoomForGuest st a = pairing.room := by
  simp [getRoomForGuest, hps, hget, jsDateLt, hexp, lt_irrefl]

/-- C3 witness: concrete boundary pairing expiring at exactly `now = 42`
still resolves to its room. -/
theorem c3_boundary_still_authorized_witness :
    getRoomForGuest
      { pairings := some [("10.0.20.8", { room := some "606", expires_at := some 42 })],
        devices := none, now := 42 } "10.0.20.8" = some "606" :=
  c3_boundary_still_authorized
    { pairings := some [("10.0.20.8", { room := some "606", expires_at := some 42 })],
      devices := none, now := 42 } "10.0.20.8"
    [("10.0.20.8", { room := some "606", expires_at := some 42 })]
    { room := some "606", expires_at := some 42 } rfl (by decide) rfl

/-! ## C4 -/

/-- C4: every response datagram emitted while handling a query is sent to
the originating source address and source port of that query; in
particular, whenever the source address is not the multicast group
224.0.0.251 (as holds for every real query, since a multicast address is
never a datagram source), no send targets the multicast group. -/
theorem c4_unicast_to_source (st : ProxyState) (p : Packet) (r : Rinfo) (s : Send)
    (hs : s ∈ handleQuery st p r) :
    s.addr = r.address ∧ s.port = r.port ∧
      (r.address ≠ "224.0.0.251" → s.addr ≠ "224.0.0.251") := by
  obtain ⟨ha, hp⟩ := handleQuery_send_dest st p r s hs
  exact ⟨ha, hp, fun hne => ha ▸ hne⟩

/-- C4 witness: the one send of a concrete authorized exchange goes to the
query source 10.0.20.5:1234 and not to the multicast group. -/
theorem c4_unicast_to_source_witness :
    (Send.mk (buildResponse { uuid := "d4", friendly_name := "TV4", ip := "192.168.30.4",
                              last_seen := "t", room := some "101" }) 1234 "10.0.20.5").addr =
        "10.0.20.5" ∧
    (Send.mk (buildResponse { uuid := "d4", friendly_name := "TV4", ip := "192.168.30.4",
                              last_seen := "t", room := some "101" }) 1234 "10.0.20.5").port =
        1234 ∧
    ("10.0.20.5" ≠ "224.0.0.251" →
      (Send.mk (buildResponse { uuid := "d4", friendly_name := "TV4", ip := "192.168.30.4",
                                last_seen := "t", room := some "101" }) 1234 "10.0.20.5").addr ≠
          "224.0.0.251") :=
  c4_unicast_to_source
    { pairings := some [("10.0.20.5", { room := some "101", expires_at := some 999 })],
      devices := some [{ uuid := "d4", friendly_name := "TV4", ip := "192.168.30.4",
                         last_seen := "t", room := some "101" }],
      now := 0 }
    { questions := [{ name := "_googlecast._tcp.local", qtype := "PTR" }] }
    { address := "10.0.20.5", port := 1234 } _ (by decide)

/-! ## C5 -/

/-- C5 counterexample: the code matches the question name with strict,
case-sensitive equality, not case-insensitively. A single-question PTR
query for the mixed-case name "_GoogleCast._tcp.local" is relevant under
the claimed case-insensitive matching (`specRelevant`), yet the code
deems it irrelevant and sends no datagram even from a fully authorized
guest with a matching device. -/
theorem c5_counterexample_case_sensitive :
    specRelevant { questions := [{ name := "_GoogleCast._tcp.local", qtype := "PTR" }] } = true ∧
    isGoogleCast { questions := [{ name := "_GoogleCast._tcp.local", qtype := "PTR" }] } = false ∧
    handleQuery
      { pairings := some [("10.0.20.9", { room := some "303", expires_at := some 5000 })],
        devices := some [{ uuid := "ccc", friendly_name := "Den TV", ip := "192.168.30.5",
                           last_seen := "t", room := some "303" }],
        now := 10 }
      { questions := [{ name := "_GoogleCast._tcp.local", qtype := "PTR" }] }
      { address := "10.0.20.9", port := 5353 } = [] := by
  decide

/-- C5 (amended): a decoded query is treated as relevant iff at least one
of its questions has record type "PTR" and a name EXACTLY equal
(case-sensitively) to "_googlecast._tcp.local"; a single matching
question in a multi-question packet suffices; and for every query with
no such question the proxy sends no datagram at all. -/
theorem c5_exact_match_relevance (st : ProxyState) (p : Packet) (r : Rinfo) :
    (isGoogleCast p = true ↔
      ∃ q ∈ p.questions, q.name = "_googlecast._tcp.local" ∧ q.qtype = "PTR") ∧
    (isGoogleCast p = false → handleQuery st p r = []) := by
  constructor
  · simp [isGoogleCast, List.any_eq_true, Bool.and_eq_true, beq_iff_eq]
  · intro h
    simp [handleQuery, h]

/-- C5 witness: a query with only an unrelated question produces no sends. -/
theorem c5_exact_match_relevance_witness :
    handleQuery { pairings := none, devices := none, now := 0 }
      { questions := [{ name := "_airplay._tcp.local", qtype := "PTR" },
                      { name := "_googlecast._tcp.local", qtype := "A" }] }
      { address := "10.0.20.2", port := 5353 } = [] :=
  (c5_exact_match_relevance { pairings := none, devices := none, now := 0 }
    { questions := [{ name := "_airplay._tcp.local", qtype := "PTR" },
                    { name := "_googlecast._tcp.local", qtype := "A" }] }
    { address := "10.0.20.2", port := 5353 }).2 (by decide)

/-! ## C6 -/

/-- C6: in the firewall-integrated handler from the guide, every device
actually answered contributes both its response send and a firewall
allow request keyed on the (guest address, device IP) pair with the
15-minute lifetime; and the datagrams sent are identical under any two
outcomes of the `nft` invocation — a rule-install failure (caught inside
`allowPair`, which then returns false) neither suppresses nor retracts
any response. -/
theorem c6_firewall_allow_per_device (execOk execOk2 : String → String → Bool)
    (st : ProxyState) (p : Packet) (r : Rinfo) (room : String) (ds : List Device)
    (hrel : isGoogleCast p = true)
    (hauth : getRoomForGuest st r.address = some room)
    (hroom : room ≠ "")
    (hds : st.devices = some ds) :
    (∀ d ∈ ds.filter (fun d => d.room == some room),
        Action.send (buildResponse d) r.port r.address ∈ handleQueryFW execOk st p r ∧
        Action.fwAllow r.address d.ip 15 (allowPair execOk r.address d.ip 15) ∈
          handleQueryFW execOk st p r) ∧
    sendsOf (handleQueryFW execOk st p r) = sendsOf (handleQueryFW execOk2 st p r) := by
  have hred : ∀ e : String → String → Bool,
      handleQueryFW e st p r = deviceActions e r (ds.filter (fun d => d.room == some room)) := by
    intro e
    simp [handleQueryFW, hrel, hauth, hroom, getDevicesForRoom, hds]
  constructor
  · intro d hd
    rw [hred execOk]
    exact deviceActions_mem execOk r _ d hd
  · rw [hred execOk, hred execOk2, sendsOf_deviceActions, sendsOf_deviceActions]

/-- C6 witness: with an always-failing `nft` invocation, the answered
device still has its send in the trace, alongside its (failed) firewall
allow request for the pair (10.0.20.5, 192.168.30.9). -/
theorem c6_firewall_allow_per_device_witness :
    Action.send
        (buildResponse { uuid := "d6", friendly_name := "TV6", ip := "192.168.30.9",
                         last_seen := "t", room := some "101" }) 5353 "10.0.20.5" ∈
      handleQueryFW (fun _ _ => false)
        { pairings := some [("10.0.20.5", { room := some "101", expires_at := some 999 })],
          devices := some [{ uuid := "d6", friendly_name := "TV6", ip := "192.168.30.9",
                             last_seen := "t", room := some "101" }],
          now := 0 }
        { questions := [{ name := "_googlecast._tcp.local", qtype := "PTR" }] }
        { address := "10.0.20.5", port := 5353 } ∧
    Action.fwAllow "10.0.20.5" "192.168.30.9" 15
        (allowPair (fun _ _ => false) "10.0.20.5" "192.168.30.9" 15) ∈
      handleQueryFW (fun _ _ => false)
        { pairings := some [("10.0.20.5", { room := some "101", expires_at := some 999 })],
          devices := some [{ uuid := "d6", friendly_name := "TV6", ip := "192.168.30.9",
                             last_seen := "t", room := some "101" }],
          now := 0 }
        { questions := [{ name := "_googlecast._tcp.local", qtype := "PTR" }] }
        { address := "10.0.20.5", port := 5353 } :=
  (c6_firewall_allow_per_device (fun _ _ => false) (fun _ _ => true)
    { pairings := some [("10.0.20.5", { room := some "101", expires_at := some 999 })],
      devices := some [{ uuid := "d6", friendly_name := "TV6", ip := "192.168.30.9",
                         last_seen := "t", room := some "101" }],
      now := 0 }
    { questions := [{ name := "_googlecast._tcp.local", qtype := "PTR" }] }
    { address := "10.0.20.5", port := 5353 } "101" _
    (by decide) (by decide) (by decide) rfl).1
    { uuid := "d6", friendly_name := "TV6", ip := "192.168.30.9",
      last_seen := "t", room := some "101" } (by decide)

/-! ## C7 -/

/-- C7 (code bug, evaluation at the failing input): a registry holding a
device whose `room` was externally assigned to "101" is upserted by a
re-discovery of the same uuid; because `fetchDeviceInfo` always supplies
a `room` key (value null) and the spread merge overwrites every supplied
key, the stored device ends with `room` null — the externally assigned
room is clobbered, contradicting the documented invariant that discovery
upserts never clobber an externally assigned room. -/
theorem c7_discovery_clobbers_room :
    saveDevice
      [{ uuid := "u-1", friendly_name := "Living TV", ip := "192.168.25.9",
         last_seen := "2026-01-01", room := some "101" }]
      (fetchDeviceInfo "u-1" "Living TV" "192.168.25.9" "2026-01-02") =
      [{ uuid := "u-1", friendly_name := "Living TV", ip := "192.168.25.9",
         last_seen := "2026-01-02", room := none }] := by
  decide

/-! ## C8 -/

/-- C8 counterexample: the synthesized instance name is NOT injective on
distinct uuids — two devices whose uuids differ only in dash placement
("a-b" versus "ab") collide on the same instance name, because the
synthesis strips every dash from the uuid. -/
theorem c8_counterexample_collision :
    (Device.mk "a-b" "TV1" "192.168.30.1" "t" none).uuid ≠
      (Device.mk "ab" "TV2" "192.168.30.2" "t" none).uuid ∧
    instanceName (Device.mk "a-b" "TV1" "192.168.30.1" "t" none).uuid =
      instanceName (Device.mk "ab" "TV2" "192.168.30.2" "t" none).uuid := by
  decide

/-- C8 (amended): the synthesized instance name is a deterministic
function of the uuid alone — devices with equal uuids get identical
instance names and identical PTR answer sections whatever their friendly
names or IPs — and it is injective on uuids that remain distinct after
dash removal (canonical-format uuids in particular); uuids that differ
only in dash placement, however, collide. -/
theorem c8_instance_name_functional (d d2 : Device) :
    (d.uuid = d2.uuid →
      instanceName d.uuid = instanceName d2.uuid ∧
      (buildResponse d).answers = (buildResponse d2).answers) ∧
    (stripDashes d.uuid ≠ stripDashes d2.uuid →
      instanceName d.uuid ≠ instanceName d2.uuid) := by
  constructor
  · intro h
    constructor
    · rw [h]
    · simp [buildResponse, h]
  · intro hne heq
    apply hne
    simp only [instanceName] at heq
    have hd := congrArg String.data heq
    rw [String.data_append, String.data_append] at hd
    exact String.ext (List.append_cancel_left hd)

/-- C8 witness: same uuid, different metadata — same PTR answers; and two
canonical-format distinct uuids get distinct instance names. -/
theorem c8_instance_name_functional_witness :
    ((buildResponse (Device.mk "u-9" "Old name" "192.168.30.1" "t1" none)).answers =
        (buildResponse (Device.mk "u-9" "New name" "192.168.30.250" "t2" (some "101"))).answers) ∧
    instanceName (Device.mk "ab-c" "A" "1" "t" none).uuid ≠
      instanceName (Device.mk "ab-d" "B" "2" "t" none).uuid :=
  ⟨((c8_instance_name_functional (Device.mk "u-9" "Old name" "192.168.30.1" "t1" none)
      (Device.mk "u-9" "New name" "192.168.30.250" "t2" (some "101"))).1 (by decide)).2,
   (c8_instance_name_functional (Device.mk "ab-c" "A" "1" "t" none)
      (Device.mk "ab-d" "B" "2" "t" none)).2 (by decide)⟩

/-! ## C9 -/

/-- C9: for every query from an authorized guest whose room matches no
registry device — because no device has that room or because the
registry read failed (modelled by `devices = none`, the caught branch
returning the empty list) — the handler sends zero datagrams and
returns normally (it is a total function returning the empty send
list), with no error raised. -/
theorem c9_empty_room_silence (st : ProxyState) (p : Packet) (r : Rinfo) (room : String)
    (hauth : getRoomForGuest st r.address = some room)
    (hempty : st.devices = none ∨
      ∃ ds, st.devices = some ds ∧ ds.filter (fun d => d.room == some room) = []) :
    handleQuery st p r = [] := by
  have hdev : getDevicesForRoom st room = [] := by
    rcases hempty with h | ⟨ds, hds, hf⟩
    · simp [getDevicesForRoom, h]
    · simp [getDevicesForRoom, hds, hf]
  simp [handleQuery, hauth, hdev]

/-- C9 witness: an authorized guest in room 404 with an unreadable device
registry receives silence. -/
theorem c9_empty_room_silence_witness :
    handleQuery
      { pairings := some [("10.0.20.6", { room := some "404", expires_at := some 999 })],
        devices := none, now := 0 }
      { questions := [{ name := "_googlecast._tcp.local", qtype := "PTR" }] }
      { address := "10.0.20.6", port := 5353 } = [] :=
  c9_empty_room_silence
    { pairings := some [("10.0.20.6", { room := some "404", expires_at := some 999 })],
      devices := none, now := 0 }
    { questions := [{ name := "_googlecast._tcp.local", qtype := "PTR" }] }
    { address := "10.0.20.6", port := 5353 } "404" (by decide) (Or.inl rfl)

/-! ## C10 -/

/-- C10: a pairing record whose `expires_at` does not parse as a date
(JS `NaN`, modelled by `expires_at = none`) makes the expiry comparison
false, so `getRoomForGuest` treats the record as unexpired and returns
its room — for EVERY query-handling time `st.now`, i.e. the malformed
pairing authorizes the guest indefinitely instead of failing closed. -/
theorem c10_nan_expiry_authorizes (st : ProxyState) (a : String)
    (ps : List (String × Pairing)) (pairing : Pairing)
    (hps : st.pairings = some ps)
    (hget : objGet ps a = some pairing)
    (hnan : pairing.expires_at = none) :
    getRoomForGuest st a = pairing.room := by
  simp [getRoomForGuest, hps, hget, jsDateLt, hnan]

/-- C10 witness: a malformed-expiry pairing still resolves to its room at
an arbitrarily late time. -/
theorem c10_nan_expiry_authorizes_witness :
    getRoomForGuest
      { pairings := some [("10.0.20.3", { room := some "505", expires_at := none })],
        devices := none, now := 99999999999 } "10.0.20.3" = some "505" :=
  c10_nan_expiry_authorizes
    { pairings := some [("10.0.20.3", { room := some "505", expires_at := none })],
      devices := none, now := 99999999999 } "10.0.20.3"
    [("10.0.20.3", { room := some "505", expires_at := none })]
    { room := some "505", expires_at := none } rfl (by decide) rfl

end CastProxy
